import Mathlib

/-
Verification development for the PartyStream backend (DJ booking and
private streaming marketplace).

Shallow embedding conventions:
  * Timestamps and money amounts are rationals.  Booking times are measured
    in hours, so the moment diff in fractional hours is plain subtraction.
  * Entity statuses and caller roles are the literal strings the JavaScript
    code compares (the code validates statuses against string lists, and an
    arbitrary string can arrive as a requested target status).
  * The hosted database is a record of lists; a db.update call maps over the
    list replacing the row with the matching id; db.insert appends.
  * A JavaScript throw inside a model function is an Except.error; a
    controller catch block is a match on that Except.
  * External collaborators (Stripe, AWS IVS) are modelled as succeeding;
    identifiers they return are passed in as parameters.  Best effort
    branches that only touch external systems are omitted, as are the
    metadata columns (title, channel arn, client secret) no control flow
    reads.
  * HTTP handler results are (status code, database state) pairs.
-/

namespace PartyStream

/-- A booking row, fields as in the bookings table and models/Booking.js. -/
structure BookingR where
  id : Nat
  host_id : Nat
  dj_profile_id : Nat
  start_time : ℚ
  end_time : ℚ
  duration_hours : ℚ
  status : String
  total_amount : ℚ
  payment_status : String
deriving Repr, DecidableEq

/-- A DJ profile row (subset of columns the booking logic reads). -/
structure DjProfileR where
  id : Nat
  user_id : Nat
  hourly_rate : ℚ
deriving Repr, DecidableEq

/-- A stream row.  updated_at is the only timestamp the model layer writes
on a status change (the streams table has no dedicated start or end time
column). -/
structure StreamR where
  id : Nat
  booking_id : Nat
  dj_profile_id : Nat
  host_id : Nat
  status : String
  updated_at : Option ℚ
deriving Repr, DecidableEq

/-- A payment row, fields as written by the payment controller. -/
structure PaymentR where
  id : Nat
  booking_id : Nat
  stripe_payment_intent_id : String
  amount : ℚ
  service_fee : ℚ
  total_amount : ℚ
  status : String
deriving Repr, DecidableEq

/-- The authenticated caller (req.user) as derived from the session token. -/
structure Caller where
  id : Nat
  role : String
deriving Repr, DecidableEq

/-- The persistent store: one list per table the claims touch. -/
structure State where
  bookings : List BookingR
  djProfiles : List DjProfileR
  streams : List StreamR
  payments : List PaymentR
deriving Repr, DecidableEq

/-- db.getById on the bookings table. -/
def State.getBooking (s : State) (bid : Nat) : Option BookingR :=
  s.bookings.find? (fun b => b.id == bid)

/-- db.getById on the streams table. -/
def State.getStream (s : State) (sid : Nat) : Option StreamR :=
  s.streams.find? (fun st => st.id == sid)

/-- DjProfile.getById. -/
def DjProfile.getById (s : State) (pid : Nat) : Option DjProfileR :=
  s.djProfiles.find? (fun p => p.id == pid)

/-- DjProfile.getByUserId. -/
def DjProfile.getByUserId (s : State) (uid : Nat) : Option DjProfileR :=
  s.djProfiles.find? (fun p => p.user_id == uid)

/-- Valid booking statuses, from models/Booking.js updateStatus. -/
def bookingValidStatuses : List String :=
  ["pending", "confirmed", "cancelled", "completed"]

/-- Valid booking payment statuses, from models/Booking.js
updatePaymentStatus.  Note the list has "completed", not "paid". -/
def bookingValidPaymentStatuses : List String :=
  ["pending", "processing", "completed", "failed", "refunded"]

/-- Valid stream statuses, from models/Stream.js updateStatus.  Note the
list has "live", not "active". -/
def streamValidStatuses : List String :=
  ["created", "live", "ended", "failed"]

/-- Valid payment statuses, from models/Payment.js updateStatus. -/
def paymentValidStatuses : List String :=
  ["pending", "processing", "succeeded", "failed", "refunded"]

/-- db.update of the status column of one booking row. -/
def dbUpdateBookingStatus (s : State) (bid : Nat) (st : String) : State :=
  { s with bookings :=
      s.bookings.map (fun b => if b.id == bid then { b with status := st } else b) }

/-- db.update of the payment_status column of one booking row. -/
def dbUpdateBookingPaymentStatus (s : State) (bid : Nat) (ps : String) : State :=
  { s with bookings :=
      s.bookings.map (fun b => if b.id == bid then { b with payment_status := ps } else b) }

/-- db.update of the status column of one stream row; the model also
refreshes updated_at with the current time. -/
def dbUpdateStreamStatus (s : State) (sid : Nat) (st : String) (now : ℚ) : State :=
  { s with streams :=
      s.streams.map (fun x =>
        if x.id == sid then { x with status := st, updated_at := some now } else x) }

/-- db.update of the status column of one payment row. -/
def dbUpdatePaymentStatus (s : State) (pid : Nat) (st : String) : State :=
  { s with payments :=
      s.payments.map (fun p => if p.id == pid then { p with status := st } else p) }

/-- Booking.updateStatus from models/Booking.js: throws on a status outside
the valid list, otherwise writes it. -/
def Booking.updateStatus (s : State) (bid : Nat) (status : String) :
    Except String State :=
  if bookingValidStatuses.contains status then
    .ok (dbUpdateBookingStatus s bid status)
  else
    .error ("Invalid status: " ++ status)

/-- Booking.updatePaymentStatus from models/Booking.js: throws on a payment
status outside the valid list, otherwise writes it. -/
def Booking.updatePaymentStatus (s : State) (bid : Nat) (paymentStatus : String) :
    Except String State :=
  if bookingValidPaymentStatuses.contains paymentStatus then
    .ok (dbUpdateBookingPaymentStatus s bid paymentStatus)
  else
    .error ("Invalid payment status: " ++ paymentStatus)

/-- Stream.updateStatus from models/Stream.js: throws on a status outside
["created", "live", "ended", "failed"], otherwise writes it together with
updated_at.  Extra arguments passed by the controller (start or end
timestamps) are not part of the signature and are dropped. -/
def Stream.updateStatus (s : State) (sid : Nat) (status : String) (now : ℚ) :
    Except String State :=
  if streamValidStatuses.contains status then
    .ok (dbUpdateStreamStatus s sid status now)
  else
    .error ("Invalid status: " ++ status)

/-- Payment.updateStatus from models/Payment.js. -/
def Payment.updateStatus (s : State) (pid : Nat) (status : String) :
    Except String State :=
  if paymentValidStatuses.contains status then
    .ok (dbUpdatePaymentStatus s pid status)
  else
    .error ("Invalid status: " ++ status)

/-- Booking.checkConflicts from models/Booking.js.  The supabase query
applies the two time comparisons through a single .or filter, so a row
matches when start_time is at most the new end OR end_time is at least the
new start (a disjunction, combined by AND with the dj and status equality
filters and the optional id exclusion). -/
def Booking.checkConflicts (s : State) (djProfileId : Nat) (startT endT : ℚ)
    (excludeBookingId : Option Nat) : Bool :=
  ((s.bookings.filter (fun b =>
      b.dj_profile_id == djProfileId && b.status == "confirmed"
        && (decide (b.start_time ≤ endT) || decide (b.end_time ≥ startT))
        && (match excludeBookingId with
            | some e => b.id != e
            | none => true))).length) > 0

/-- Booking.create from models/Booking.js: re-validates the times (an end
strictly before the start throws) and inserts with default status pending.
Its inputs here are already parsed time values, matching the controller
call site; the duration is the fractional hour difference. -/
def Booking.create (s : State) (newId hostId djProfileId : Nat)
    (startT endT : ℚ) (totalAmount : ℚ) (status paymentStatus : String) :
    Except String State :=
  if endT < startT then
    .error "End time must be after start time"
  else
    .ok { s with bookings := s.bookings ++
      [{ id := newId, host_id := hostId, dj_profile_id := djProfileId,
         start_time := startT, end_time := endT,
         duration_hours := endT - startT, status := status,
         total_amount := totalAmount, payment_status := paymentStatus }] }

/-- Create booking request body: the two time strings are modelled as
Option rationals, none standing for a string moment fails to parse. -/
structure CreateBookingReq where
  dj_profile_id : Nat
  start_time : Option ℚ
  end_time : Option ℚ
deriving Repr, DecidableEq

/-- BookingController.createBooking: host role check, required fields, DJ
profile lookup, date parse check, start strictly before now rejected, end
strictly before start rejected, duration and amount computed, conflict
check, insert with status pending and payment_status pending. -/
def BookingController.createBooking (s : State) (user : Caller)
    (req : CreateBookingReq) (now : ℚ) (newId : Nat) : Nat × State :=
  if user.role != "host" then (403, s)
  else
    match DjProfile.getById s req.dj_profile_id with
    | none => (404, s)
    | some djProfile =>
      match req.start_time, req.end_time with
      | some startTime, some endTime =>
        if startTime < now then (400, s)
        else if endTime < startTime then (400, s)
        else
          let durationHours := endTime - startTime
          let totalAmount := durationHours * djProfile.hourly_rate
          if Booking.checkConflicts s req.dj_profile_id startTime endTime none then
            (409, s)
          else
            match Booking.create s newId user.id req.dj_profile_id startTime endTime
                totalAmount "pending" "pending" with
            | .ok s1 => (201, s1)
            | .error _ => (500, s)
      | _, _ => (400, s)

/-- True when the caller owns the DJ profile the booking points at, the
inline check the booking status handler re-derives per branch. -/
def callerIsDjOf (s : State) (u : Caller) (b : BookingR) : Bool :=
  match DjProfile.getByUserId s u.id with
  | some p => p.id == b.dj_profile_id
  | none => false

/-- BookingController.updateBookingStatus: validates the target status
string first, then looks the booking up, then branches on the target for
the authorization check (cancelled: admin, host or matching DJ profile;
confirmed: admin or matching DJ profile; completed: admin; any other valid
target has no branch), and finally writes through Booking.updateStatus. -/
def BookingController.updateBookingStatus (s : State) (user : Caller)
    (bid : Nat) (status : String) : Nat × State :=
  if !(bookingValidStatuses.contains status) then (400, s)
  else
    match State.getBooking s bid with
    | none => (404, s)
    | some booking =>
      let authFail : Bool :=
        if status == "cancelled" then
          if user.role != "admin" && booking.host_id != user.id then
            !(callerIsDjOf s user booking)
          else false
        else if status == "confirmed" then
          if user.role != "admin" then
            !(callerIsDjOf s user booking)
          else false
        else if status == "completed" then
          user.role != "admin"
        else false
      if authFail then (403, s)
      else
        match Booking.updateStatus s bid status with
        | .ok s1 => (200, s1)
        | .error _ => (500, s)

/-- BookingController.deleteBooking: lookup, then host or admin check, then
refusal for a confirmed or completed booking, then db.delete. -/
def BookingController.deleteBooking (s : State) (user : Caller) (bid : Nat) :
    Nat × State :=
  match State.getBooking s bid with
  | none => (404, s)
  | some booking =>
    if user.role != "admin" && booking.host_id != user.id then (403, s)
    else if booking.status == "confirmed" || booking.status == "completed" then
      (400, s)
    else
      (200, { s with bookings := s.bookings.filter (fun b => b.id != bid) })

/-- Modelled from the spec: Stream.getActiveByBookingId is called by the
stream controller but is absent from models/Stream.js; per the spec a
stream is non-terminal when its status is created or active, and the
lookup returns an existing stream of the booking in such a state. -/
def Stream.getActiveByBookingId (s : State) (bid : Nat) : Option StreamR :=
  s.streams.find? (fun st =>
    st.booking_id == bid && (st.status == "created" || st.status == "active"))

/-- StreamController.createStream: booking lookup, confirmed status check,
DJ or admin authorization, duplicate non-terminal stream check, then the
stream record is persisted with status created (external channel
provisioning modelled as succeeding). -/
def StreamController.createStream (s : State) (user : Caller) (bid : Nat)
    (newId : Nat) : Nat × State :=
  match State.getBooking s bid with
  | none => (404, s)
  | some booking =>
    if booking.status != "confirmed" then (400, s)
    else
      let isDj : Bool := user.role == "dj" && callerIsDjOf s user booking
      if user.role != "admin" && !isDj then (403, s)
      else
        match Stream.getActiveByBookingId s bid with
        | some _ => (409, s)
        | none =>
          (201, { s with streams := s.streams ++
            [{ id := newId, booking_id := bid,
               dj_profile_id := booking.dj_profile_id,
               host_id := booking.host_id, status := "created",
               updated_at := none }] })

/-- True when the caller is a dj whose profile matches the stream row, the
inline check of the start and end handlers. -/
def callerIsDjOfStream (s : State) (u : Caller) (st : StreamR) : Bool :=
  u.role == "dj" &&
    (match DjProfile.getByUserId s u.id with
     | some p => p.id == st.dj_profile_id
     | none => false)

/-- StreamController.startStream: lookup, created status check, DJ or admin
authorization, then Stream.updateStatus with the string "active"; the
model rejects that string, the controller catch turns the throw into a 500
with no state change. -/
def StreamController.startStream (s : State) (user : Caller) (sid : Nat)
    (now : ℚ) : Nat × State :=
  match State.getStream s sid with
  | none => (404, s)
  | some stream =>
    if stream.status != "created" then (400, s)
    else
      if user.role != "admin" && !(callerIsDjOfStream s user stream) then (403, s)
      else
        match Stream.updateStatus s sid "active" now with
        | .ok s1 => (200, s1)
        | .error _ => (500, s)

/-- StreamController.endStream: lookup, active status check, DJ, host or
admin authorization, best effort viewer count fetch (external only, no
local effect since the peak update helper is likewise absent), then
Stream.updateStatus to ended, then, only for a DJ or admin caller, the
cascade of the parent booking to completed. -/
def StreamController.endStream (s : State) (user : Caller) (sid : Nat)
    (now : ℚ) : Nat × State :=
  match State.getStream s sid with
  | none => (404, s)
  | some stream =>
    if stream.status != "active" then (400, s)
    else
      let isDj : Bool := callerIsDjOfStream s user stream
      let isHost : Bool := stream.host_id == user.id
      if user.role != "admin" && !isDj && !isHost then (403, s)
      else
        match Stream.updateStatus s sid "ended" now with
        | .error _ => (500, s)
        | .ok s1 =>
          if isDj || user.role == "admin" then
            match Booking.updateStatus s1 stream.booking_id "completed" with
            | .ok s2 => (200, s2)
            | .error _ => (500, s1)
          else (200, s1)

/-- Modelled from the spec: Payment.getByBookingIdAndStatus is called by the
payment controller but is absent from the Payment model; it returns an
existing payment of the booking with the given status. -/
def Payment.getByBookingIdAndStatus (s : State) (bid : Nat) (status : String) :
    Option PaymentR :=
  s.payments.find? (fun p => p.booking_id == bid && p.status == status)

/-- Modelled from the spec: Payment.getByStripePaymentIntentId is called by
the webhook handler but is absent from the Payment model; it looks the
local payment up by the external intent id. -/
def Payment.getByStripePaymentIntentId (s : State) (intentId : String) :
    Option PaymentR :=
  s.payments.find? (fun p => p.stripe_payment_intent_id == intentId)

/-- Modelled from the spec: the service fee percentage comes from the
backend configuration file, which is not in the repository; the controller
falls back to 0.1, the documented 10 percent default. -/
def serviceFeePercentage : ℚ := 1 / 10

/-- JavaScript Math.round: half away from zero upward, the floor of the
argument plus one half. -/
def jsRound (q : ℚ) : ℤ := ⌊q + 1 / 2⌋

/-- Rounding to two decimal places as the controller writes it:
Math.round of one hundred times the value, divided by one hundred. -/
def roundTo2 (q : ℚ) : ℚ := (jsRound (q * 100) : ℚ) / 100

/-- Modelled from the spec: Payment.create is called by the payment
controller but is absent from the Payment model; per the spec it persists
the local payment row exactly as handed over, with status pending and the
external intent reference. -/
def Payment.create (s : State) (p : PaymentR) : State :=
  { s with payments := s.payments ++ [p] }

/-- Result of the create payment intent handler: the code, the state, the
amount in cents handed to the external intent creation, and the persisted
payment row. -/
structure PayIntentRes where
  code : Nat
  state : State
  chargedCents : Option ℤ
  payment : Option PaymentR
deriving Repr, DecidableEq

/-- PaymentController.createPaymentIntent: booking lookup, host or admin
authorization, pending or confirmed status check, duplicate succeeded
payment check, DJ profile lookup, service fee and cent amount computation,
external customer and intent creation (modelled as succeeding with the
given intent id), and the local payment row insert. -/
def PaymentController.createPaymentIntent (s : State) (user : Caller)
    (bid : Nat) (intentId : String) (newId : Nat) : PayIntentRes :=
  match State.getBooking s bid with
  | none => ⟨404, s, none, none⟩
  | some booking =>
    if user.role != "admin" && booking.host_id != user.id then
      ⟨403, s, none, none⟩
    else if booking.status != "pending" && booking.status != "confirmed" then
      ⟨400, s, none, none⟩
    else
      match Payment.getByBookingIdAndStatus s bid "succeeded" with
      | some _ => ⟨409, s, none, none⟩
      | none =>
        match DjProfile.getById s booking.dj_profile_id with
        | none => ⟨404, s, none, none⟩
        | some _ =>
          let serviceFee : ℚ :=
            (jsRound (booking.total_amount * serviceFeePercentage * 100) : ℚ) / 100
          let amountInCents : ℤ :=
            jsRound ((booking.total_amount + serviceFee) * 100)
          let newPayment : PaymentR :=
            { id := newId, booking_id := bid,
              stripe_payment_intent_id := intentId,
              amount := booking.total_amount, service_fee := serviceFee,
              total_amount := booking.total_amount + serviceFee,
              status := "pending" }
          ⟨201, Payment.create s newPayment, some amountInCents, some newPayment⟩

/-- handlePaymentSuccess from payment.controller.js, for an intent carrying
an optional booking id in its metadata.  Every failure inside the body is
caught by the surrounding try, so the function totalizes to the state
reached so far; in particular the throw of Booking.updatePaymentStatus on
the string "paid" keeps the already persisted payment update. -/
def handlePaymentSuccess (s : State) (intentId : String)
    (metaBookingId : Option Nat) : State :=
  match metaBookingId with
  | none => s
  | some bookingId =>
    match Payment.getByStripePaymentIntentId s intentId with
    | none => s
    | some payment =>
      match Payment.updateStatus s payment.id "succeeded" with
      | .error _ => s
      | .ok s1 =>
        match Booking.updatePaymentStatus s1 bookingId "paid" with
        | .error _ => s1
        | .ok s2 =>
          match State.getBooking s2 bookingId with
          | some b =>
            if b.status == "pending" then
              match Booking.updateStatus s2 bookingId "confirmed" with
              | .ok s3 => s3
              | .error _ => s2
            else s2
          | none => s2

/-- handlePaymentFailed from payment.controller.js. -/
def handlePaymentFailed (s : State) (intentId : String) : State :=
  match Payment.getByStripePaymentIntentId s intentId with
  | none => s
  | some payment =>
    match Payment.updateStatus s payment.id "failed" with
    | .error _ => s
    | .ok s1 => s1

/-- PaymentController.handleWebhook after a verified signature: dispatch on
the event type, unrecognized events are acknowledged and ignored, and the
response is always 200. -/
def PaymentController.handleWebhook (s : State) (eventType : String)
    (intentId : String) (metaBookingId : Option Nat) : Nat × State :=
  if eventType == "payment_intent.succeeded" then
    (200, handlePaymentSuccess s intentId metaBookingId)
  else if eventType == "payment_intent.payment_failed" then
    (200, handlePaymentFailed s intentId)
  else
    (200, s)

/- Concrete fixtures for counterexamples, code bug evaluations and
witnesses. -/

/-- One DJ profile: id 20, owned by user 21, rate 50 per hour. -/
def djFixture : DjProfileR := { id := 20, user_id := 21, hourly_rate := 50 }

/-- A confirmed booking of DJ profile 20 by host 10 over hours 20 to 22. -/
def confirmedBookingFixture : BookingR :=
  { id := 1, host_id := 10, dj_profile_id := 20, start_time := 20,
    end_time := 22, duration_hours := 2, status := "confirmed",
    total_amount := 100, payment_status := "pending" }

/-- State for the conflict check evaluation: the confirmed booking above is
the only booking of DJ profile 20. -/
def stateC1 : State :=
  { bookings := [confirmedBookingFixture], djProfiles := [djFixture],
    streams := [], payments := [] }

/-- A pending booking with a pending payment for the webhook evaluation. -/
def pendingBookingFixture : BookingR :=
  { id := 1, host_id := 10, dj_profile_id := 20, start_time := 20,
    end_time := 22, duration_hours := 2, status := "pending",
    total_amount := 100, payment_status := "pending" }

/-- State for the webhook evaluation: a pending payment for intent pi_1 on
the pending booking. -/
def stateC2 : State :=
  { bookings := [pendingBookingFixture], djProfiles := [djFixture],
    streams := [],
    payments := [{ id := 5, booking_id := 1, stripe_payment_intent_id := "pi_1",
                   amount := 100, service_fee := 10, total_amount := 110,
                   status := "pending" }] }

/-- The state the webhook handler actually reaches on stateC2: only the
payment row has moved to succeeded; the booking row is untouched. -/
def stateC2After : State :=
  { bookings := [pendingBookingFixture], djProfiles := [djFixture],
    streams := [],
    payments := [{ id := 5, booking_id := 1, stripe_payment_intent_id := "pi_1",
                   amount := 100, service_fee := 10, total_amount := 110,
                   status := "succeeded" }] }

/-- State for the status transition counterexample: the confirmed booking
and the DJ profile. -/
def stateC3 : State := stateC1

/-- A caller who is neither the host of booking 1, nor a DJ, nor admin. -/
def strangerCaller : Caller := { id := 99, role := "host" }

/-- State for the start stream evaluation: a stream in status created for
booking 1, owned by DJ profile 20. -/
def stateC5 : State :=
  { bookings := [confirmedBookingFixture], djProfiles := [djFixture],
    streams := [{ id := 7, booking_id := 1, dj_profile_id := 20,
                  host_id := 10, status := "created", updated_at := none }],
    payments := [] }

/-- The DJ caller owning profile 20. -/
def djCaller : Caller := { id := 21, role := "dj" }

/-- State for the create booking validation counterexample: one DJ profile,
no bookings at all. -/
def stateC7 : State :=
  { bookings := [], djProfiles := [djFixture], streams := [], payments := [] }

/-- The host caller with id 10. -/
def hostCaller : Caller := { id := 10, role := "host" }

/-- The streams of a booking that are in a non-terminal state per the spec
(status created or active). -/
def nonTerminalStreamsFor (s : State) (bid : Nat) : List StreamR :=
  s.streams.filter (fun st =>
    st.booking_id == bid && (st.status == "created" || st.status == "active"))

/-- State for the end stream witness: one stream of booking 1 in status
active. -/
def stateC8 : State :=
  { bookings := [confirmedBookingFixture], djProfiles := [djFixture],
    streams := [{ id := 7, booking_id := 1, dj_profile_id := 20,
                  host_id := 10, status := "active", updated_at := none }],
    payments := [] }

/- Theorems, one per claim, with counterexamples and witnesses.  The first
lemmas are shared helpers about lookups after a row update. -/

/-- Finding by a predicate after mapping a row update that only fires on
matching rows and does not change whether a row matches. -/
theorem find?_map_ite {α : Type} (p : α → Bool) (f : α → α) (l : List α)
    (hf : ∀ x, p (f x) = p x) :
    (l.map (fun x => if p x then f x else x)).find? p = (l.find? p).map f := by
  induction l with
  | nil => rfl
  | cons a t ih =>
    by_cases h : p a = true
    · rw [List.map_cons, if_pos h, List.find?_cons_of_pos _ ((hf a).trans h),
        List.find?_cons_of_pos _ h, Option.map_some']
    · rw [List.map_cons, if_neg h, List.find?_cons_of_neg _ h,
        List.find?_cons_of_neg _ h, ih]

/-- Looking up a stream after a stream status update. -/
theorem getStream_after_update (s : State) (sid : Nat) (stat : String) (now : ℚ) :
    State.getStream (dbUpdateStreamStatus s sid stat now) sid
      = (State.getStream s sid).map
          (fun x => { x with status := stat, updated_at := some now }) := by
  unfold State.getStream dbUpdateStreamStatus
  exact find?_map_ite (fun x => x.id == sid)
    (fun x => { x with status := stat, updated_at := some now }) s.streams
    (fun x => rfl)

/-- Looking up a booking after a booking status update. -/
theorem getBooking_after_update (s : State) (bid : Nat) (stat : String) :
    State.getBooking (dbUpdateBookingStatus s bid stat) bid
      = (State.getBooking s bid).map (fun x => { x with status := stat }) := by
  unfold State.getBooking dbUpdateBookingStatus
  exact find?_map_ite (fun x => x.id == bid)
    (fun x => { x with status := stat }) s.bookings (fun x => rfl)

/-- Claim C1 (code evaluation): the conflict query joins the two interval
comparisons with OR rather than AND, so a request for hours 10 to 12 --
disjoint from the confirmed booking over hours 20 to 22, since 12 is less
than 20 -- is still reported as a conflict and createBooking answers 409,
although the claim requires a non-overlapping interval to succeed. -/
theorem checkConflicts_rejects_disjoint_interval :
    Booking.checkConflicts stateC1 20 10 12 none = true ∧
    BookingController.createBooking stateC1
        { id := 30, role := "host" }
        { dj_profile_id := 20, start_time := some 10, end_time := some 12 }
        5 2
      = (409, stateC1) ∧
    (12 : ℚ) < 20 := by
  refine ⟨by decide, by decide, by norm_num⟩

/-- Claim C2 (code evaluation): on a payment_intent.succeeded event whose
intent id matches the stored payment of pending booking 1, the handler
marks the payment succeeded, but the subsequent
Booking.updatePaymentStatus call with the string "paid" throws inside the
model (the valid list has "completed", not "paid"), the catch swallows it,
and the booking keeps payment_status pending and status pending, never
reaching confirmed; the webhook still answers 200.  A lookup miss is a
no-op. -/
theorem paymentSuccess_leaves_booking_unchanged :
    handlePaymentSuccess stateC2 "pi_1" (some 1) = stateC2After ∧
    Booking.updatePaymentStatus stateC2 1 "paid"
      = Except.error "Invalid payment status: paid" ∧
    PaymentController.handleWebhook stateC2 "payment_intent.succeeded" "pi_1" (some 1)
      = (200, stateC2After) ∧
    handlePaymentSuccess stateC2 "pi_unknown" (some 1) = stateC2 := by
  refine ⟨by decide, rfl, by decide, by decide⟩

/-- Claim C3 (counterexample): a caller who is neither the host of the
booking, nor its DJ, nor an admin, requests the target status pending on
the confirmed booking; the handler has no authorization branch for that
target, so the request succeeds with 200 and the booking returns to
pending, while the claim states that no caller is permitted this target. -/
theorem updateBookingStatus_pending_allowed_cex :
    (BookingController.updateBookingStatus stateC3 strangerCaller 1 "pending").1
      = 200 ∧
    ((BookingController.updateBookingStatus stateC3 strangerCaller 1 "pending").2.getBooking 1).map
        (fun b => b.status) = some "pending" ∧
    strangerCaller.role ≠ "admin" ∧
    strangerCaller.id ≠ confirmedBookingFixture.host_id ∧
    callerIsDjOf stateC3 strangerCaller confirmedBookingFixture = false := by
  refine ⟨by decide, by decide, by decide, by decide, by decide⟩

/-- Claim C5 (code evaluation): the DJ of the stream starts a stream in
status created; the controller passes the string "active" to
Stream.updateStatus, whose valid list is created, live, ended, failed, so
the model throws, the catch answers 500, and the state is unchanged -- the
stream never becomes active and no start timestamp is recorded, while the
claim (and the repository integration test) expect the transition to
active. -/
theorem startStream_always_fails :
    StreamController.startStream stateC5 djCaller 7 30 = (500, stateC5) ∧
    Stream.updateStatus stateC5 7 "active" 30
      = Except.error "Invalid status: active" ∧
    callerIsDjOfStream stateC5 djCaller
        { id := 7, booking_id := 1, dj_profile_id := 20, host_id := 10,
          status := "created", updated_at := none } = true := by
  refine ⟨by decide, rfl, by decide⟩

/-- Claim C7 (counterexample): with start equal to now and end equal to
start (hour 100 everywhere), both strict-inequality rejections pass (the
code rejects only a start strictly before now and an end strictly before
the start), so the booking is created with 201, duration zero and status
pending, while the claim requires a ValidationError. -/
theorem createBooking_boundary_accepted_cex :
    BookingController.createBooking stateC7 hostCaller
        { dj_profile_id := 20, start_time := some 100, end_time := some 100 }
        100 1
      = (201, { stateC7 with bookings :=
          [{ id := 1, host_id := 10, dj_profile_id := 20, start_time := 100,
             end_time := 100, duration_hours := 0, status := "pending",
             total_amount := 0, payment_status := "pending" }] }) := by
  norm_num [BookingController.createBooking, stateC7, djFixture, hostCaller,
    DjProfile.getById, Booking.checkConflicts, Booking.create]

/-- Claim C3 (amended): for an existing booking, an invalid target status is
rejected with 400 before anything else; target pending succeeds for every
caller (there is no authorization branch for it); target cancelled
succeeds exactly for admin, the host of the booking or the owner of its DJ
profile, with no restriction on the current status; target confirmed
exactly for admin or the DJ; target completed exactly for admin. -/
theorem updateBookingStatus_matrix (s : State) (u : Caller) (bid : Nat)
    (b : BookingR) (target : String)
    (hb : State.getBooking s bid = some b) :
    (bookingValidStatuses.contains target = false →
      BookingController.updateBookingStatus s u bid target = (400, s)) ∧
    (target = "pending" →
      BookingController.updateBookingStatus s u bid target
        = (200, dbUpdateBookingStatus s bid "pending")) ∧
    (target = "cancelled" →
      BookingController.updateBookingStatus s u bid target
        = if u.role == "admin" || b.host_id == u.id || callerIsDjOf s u b then
            (200, dbUpdateBookingStatus s bid "cancelled")
          else (403, s)) ∧
    (target = "confirmed" →
      BookingController.updateBookingStatus s u bid target
        = if u.role == "admin" || callerIsDjOf s u b then
            (200, dbUpdateBookingStatus s bid "confirmed")
          else (403, s)) ∧
    (target = "completed" →
      BookingController.updateBookingStatus s u bid target
        = if u.role == "admin" then
            (200, dbUpdateBookingStatus s bid "completed")
          else (403, s)) := by
  refine ⟨?_, ?_, ?_, ?_, ?_⟩
  · intro h
    unfold BookingController.updateBookingStatus
    rw [h]
    rfl
  · intro h
    subst h
    simp only [BookingController.updateBookingStatus, hb]
    simp [Booking.updateStatus, bookingValidStatuses]
  · intro h
    subst h
    simp only [BookingController.updateBookingStatus, hb]
    cases hA : u.role == "admin" <;> cases hH : b.host_id == u.id <;>
      cases hD : callerIsDjOf s u b <;>
        simp_all [Booking.updateStatus, bookingValidStatuses]
  · intro h
    subst h
    simp only [BookingController.updateBookingStatus, hb]
    cases hA : u.role == "admin" <;> cases hD : callerIsDjOf s u b <;>
      simp_all [Booking.updateStatus, bookingValidStatuses]
  · intro h
    subst h
    simp only [BookingController.updateBookingStatus, hb]
    cases hA : u.role == "admin" <;>
      simp_all [Booking.updateStatus, bookingValidStatuses]

/-- Witness for the status transition matrix: the DJ caller confirming the
pending booking in the webhook fixture state. -/
theorem updateBookingStatus_matrix_witness :
    State.getBooking stateC2 1 = some pendingBookingFixture ∧
    (bookingValidStatuses.contains "confirmed" = false →
      BookingController.updateBookingStatus stateC2 djCaller 1 "confirmed"
        = (400, stateC2)) ∧
    ("confirmed" = "pending" →
      BookingController.updateBookingStatus stateC2 djCaller 1 "confirmed"
        = (200, dbUpdateBookingStatus stateC2 1 "pending")) ∧
    ("confirmed" = "cancelled" →
      BookingController.updateBookingStatus stateC2 djCaller 1 "confirmed"
        = if djCaller.role == "admin" || pendingBookingFixture.host_id == djCaller.id
              || callerIsDjOf stateC2 djCaller pendingBookingFixture then
            (200, dbUpdateBookingStatus stateC2 1 "cancelled")
          else (403, stateC2)) ∧
    ("confirmed" = "confirmed" →
      BookingController.updateBookingStatus stateC2 djCaller 1 "confirmed"
        = if djCaller.role == "admin" || callerIsDjOf stateC2 djCaller pendingBookingFixture then
            (200, dbUpdateBookingStatus stateC2 1 "confirmed")
          else (403, stateC2)) ∧
    ("confirmed" = "completed" →
      BookingController.updateBookingStatus stateC2 djCaller 1 "confirmed"
        = if djCaller.role == "admin" then
            (200, dbUpdateBookingStatus stateC2 1 "completed")
          else (403, stateC2)) :=
  ⟨by decide, updateBookingStatus_matrix stateC2 djCaller 1 pendingBookingFixture
    "confirmed" (by decide)⟩

/-- Claim C10: deleting an existing booking is rejected with 403 for a
caller who is neither the host nor admin, rejected with 400 when the
booking is confirmed or completed, succeeds (removing exactly that row)
for the host or admin otherwise, and a confirmed or completed booking
always survives the call. -/
theorem deleteBooking_guarded (s : State) (u : Caller) (bid : Nat)
    (b : BookingR) (hb : State.getBooking s bid = some b) :
    (u.role ≠ "admin" → b.host_id ≠ u.id →
      BookingController.deleteBooking s u bid = (403, s)) ∧
    ((u.role = "admin" ∨ b.host_id = u.id) →
      (b.status = "confirmed" ∨ b.status = "completed") →
      BookingController.deleteBooking s u bid = (400, s)) ∧
    ((u.role = "admin" ∨ b.host_id = u.id) →
      b.status ≠ "confirmed" → b.status ≠ "completed" →
      BookingController.deleteBooking s u bid
        = (200, { s with bookings := s.bookings.filter (fun x => x.id != bid) })) ∧
    ((b.status = "confirmed" ∨ b.status = "completed") →
      b ∈ (BookingController.deleteBooking s u bid).2.bookings) := by
  have hmem : b ∈ s.bookings := List.mem_of_find?_eq_some hb
  refine ⟨?_, ?_, ?_, ?_⟩
  · intro h1 h2
    simp [BookingController.deleteBooking, hb, h1, h2]
  · intro h1 h2
    rcases h1 with h1 | h1 <;> rcases h2 with h2 | h2 <;>
      simp [BookingController.deleteBooking, hb, h1, h2]
  · intro h1 h2 h3
    rcases h1 with h1 | h1 <;>
      simp [BookingController.deleteBooking, hb, h1, h2, h3]
  · intro h2
    by_cases hA : u.role = "admin"
    · have he : BookingController.deleteBooking s u bid = (400, s) := by
        rcases h2 with h2 | h2 <;> simp [BookingController.deleteBooking, hb, hA, h2]
      rw [he]
      exact hmem
    · by_cases hH : b.host_id = u.id
      · have he : BookingController.deleteBooking s u bid = (400, s) := by
          rcases h2 with h2 | h2 <;>
            simp [BookingController.deleteBooking, hb, hH, h2]
        rw [he]
        exact hmem
      · have he : BookingController.deleteBooking s u bid = (403, s) := by
          simp [BookingController.deleteBooking, hb, hA, hH]
        rw [he]
        exact hmem

/-- Witness for the delete guard: the host attempts to delete the confirmed
booking and is rejected with 400, the booking surviving. -/
theorem deleteBooking_guarded_witness :
    State.getBooking stateC1 1 = some confirmedBookingFixture ∧
    BookingController.deleteBooking stateC1 hostCaller 1 = (400, stateC1) ∧
    confirmedBookingFixture ∈
      (BookingController.deleteBooking stateC1 hostCaller 1).2.bookings :=
  ⟨by decide,
   (deleteBooking_guarded stateC1 hostCaller 1 confirmedBookingFixture
      (by decide)).2.1 (Or.inr rfl) (Or.inl rfl),
   (deleteBooking_guarded stateC1 hostCaller 1 confirmedBookingFixture
      (by decide)).2.2.2 (Or.inl rfl)⟩

/-- Claim C4: for a confirmed booking and an authorized caller (admin or the
DJ of the booking), createStream answers 409 and leaves the state
unchanged when some stream of the booking is in a non-terminal state
(created or active), and otherwise persists exactly one new stream with
status created, keeping at most one non-terminal stream for the booking. -/
theorem createStream_unique_active (s : State) (u : Caller) (bid newId : Nat)
    (b : BookingR) (hb : State.getBooking s bid = some b)
    (hconf : b.status = "confirmed")
    (hauth : u.role = "admin" ∨ (u.role = "dj" ∧ callerIsDjOf s u b = true)) :
    ((Stream.getActiveByBookingId s bid).isSome = true →
      StreamController.createStream s u bid newId = (409, s)) ∧
    (Stream.getActiveByBookingId s bid = none →
      StreamController.createStream s u bid newId
        = (201, { s with streams := s.streams ++
            [{ id := newId, booking_id := bid,
               dj_profile_id := b.dj_profile_id, host_id := b.host_id,
               status := "created", updated_at := none }] })) ∧
    (Stream.getActiveByBookingId s bid = none →
      (nonTerminalStreamsFor (StreamController.createStream s u bid newId).2 bid).length
        ≤ 1) := by
  have hstep : StreamController.createStream s u bid newId
      = match Stream.getActiveByBookingId s bid with
        | some _ => (409, s)
        | none =>
          (201, { s with streams := s.streams ++
            [{ id := newId, booking_id := bid,
               dj_profile_id := b.dj_profile_id, host_id := b.host_id,
               status := "created", updated_at := none }] }) := by
    rcases hauth with hA | ⟨hR, hD⟩
    · simp [StreamController.createStream, hb, hconf, hA]
    · simp [StreamController.createStream, hb, hconf, hR, hD]
  refine ⟨?_, ?_, ?_⟩
  · intro h
    rcases Option.isSome_iff_exists.mp h with ⟨st, hst⟩
    rw [hstep, hst]
  · intro h
    rw [hstep, h]
  · intro h
    rw [hstep, h]
    have hempty : nonTerminalStreamsFor s bid = [] := by
      apply List.filter_eq_nil_iff.mpr
      intro st hst
      have := List.find?_eq_none.mp h st hst
      simpa using this
    simp only [nonTerminalStreamsFor] at hempty ⊢
    simp [List.filter_append, hempty]

/-- Witness for the unique active stream rule: the DJ attempts a second
stream for booking 1 while the created stream exists and is rejected with
409. -/
theorem createStream_unique_active_witness :
    State.getBooking stateC5 1 = some confirmedBookingFixture ∧
    confirmedBookingFixture.status = "confirmed" ∧
    (Stream.getActiveByBookingId stateC5 1).isSome = true ∧
    StreamController.createStream stateC5 djCaller 1 8 = (409, stateC5) :=
  ⟨by decide, by decide, by decide,
   (createStream_unique_active stateC5 djCaller 1 8 confirmedBookingFixture
      (by decide) (by decide) (Or.inr ⟨rfl, by decide⟩)).1 (by decide)⟩

/-- Claim C6: for a pending or confirmed booking and an authorized caller
(admin or the host), createPaymentIntent answers 409 and changes nothing
when a succeeded payment already exists for the booking, and otherwise
persists exactly one new payment row with status pending. -/
theorem createPaymentIntent_unique_succeeded (s : State) (u : Caller)
    (bid newId : Nat) (intentId : String) (b : BookingR) (dj : DjProfileR)
    (hb : State.getBooking s bid = some b)
    (hauth : u.role = "admin" ∨ b.host_id = u.id)
    (hstat : b.status = "pending" ∨ b.status = "confirmed")
    (hdj : DjProfile.getById s b.dj_profile_id = some dj) :
    ((Payment.getByBookingIdAndStatus s bid "succeeded").isSome = true →
      PaymentController.createPaymentIntent s u bid intentId newId
        = ⟨409, s, none, none⟩) ∧
    (Payment.getByBookingIdAndStatus s bid "succeeded" = none →
      (PaymentController.createPaymentIntent s u bid intentId newId).code = 201 ∧
      (PaymentController.createPaymentIntent s u bid intentId newId).state.payments
        = s.payments ++
          [{ id := newId, booking_id := bid,
             stripe_payment_intent_id := intentId, amount := b.total_amount,
             service_fee := roundTo2 (b.total_amount * serviceFeePercentage),
             total_amount :=
               b.total_amount + roundTo2 (b.total_amount * serviceFeePercentage),
             status := "pending" }]) := by
  have hstep : PaymentController.createPaymentIntent s u bid intentId newId
      = match Payment.getByBookingIdAndStatus s bid "succeeded" with
        | some _ => ⟨409, s, none, none⟩
        | none =>
          ⟨201,
           Payment.create s
             { id := newId, booking_id := bid,
               stripe_payment_intent_id := intentId, amount := b.total_amount,
               service_fee := roundTo2 (b.total_amount * serviceFeePercentage),
               total_amount :=
                 b.total_amount + roundTo2 (b.total_amount * serviceFeePercentage),
               status := "pending" },
           some (jsRound
             ((b.total_amount + roundTo2 (b.total_amount * serviceFeePercentage)) * 100)),
           some
             { id := newId, booking_id := bid,
               stripe_payment_intent_id := intentId, amount := b.total_amount,
               service_fee := roundTo2 (b.total_amount * serviceFeePercentage),
               total_amount :=
                 b.total_amount + roundTo2 (b.total_amount * serviceFeePercentage),
               status := "pending" }⟩ := by
    rcases hauth with hA | hH
    · rcases hstat with hS | hS <;>
        simp [PaymentController.createPaymentIntent, hb, hA, hS, hdj, roundTo2]
    · rcases hstat with hS | hS <;>
        simp [PaymentController.createPaymentIntent, hb, hH, hS, hdj, roundTo2]
  refine ⟨?_, ?_⟩
  · intro h
    rcases Option.isSome_iff_exists.mp h with ⟨p, hp⟩
    rw [hstep, hp]
  · intro h
    rw [hstep, h]
    exact ⟨rfl, by simp [Payment.create]⟩

/-- Witness for the unique succeeded payment rule: the host asks for a
second intent while the succeeded payment exists and is rejected with
409. -/
theorem createPaymentIntent_unique_succeeded_witness :
    State.getBooking stateC2After 1 = some pendingBookingFixture ∧
    (Payment.getByBookingIdAndStatus stateC2After 1 "succeeded").isSome = true ∧
    PaymentController.createPaymentIntent stateC2After hostCaller 1 "pi_2" 6
      = ⟨409, stateC2After, none, none⟩ :=
  ⟨by decide, by decide,
   (createPaymentIntent_unique_succeeded stateC2After hostCaller 1 6 "pi_2"
      pendingBookingFixture djFixture (by decide) (Or.inr rfl) (Or.inl rfl)
      (by decide)).1 (by decide)⟩

/-- Claim C9: for a booking with total amount T and no succeeded payment,
the created intent charges jsRound of one hundred times T plus the service
fee, where the service fee is T times the configured percentage rounded to
two decimal places, and the persisted payment row records amount T, that
fee, and total T plus fee. -/
theorem createPaymentIntent_fee (s : State) (u : Caller) (bid newId : Nat)
    (intentId : String) (b : BookingR) (dj : DjProfileR)
    (hb : State.getBooking s bid = some b)
    (hauth : u.role = "admin" ∨ b.host_id = u.id)
    (hstat : b.status = "pending" ∨ b.status = "confirmed")
    (hdj : DjProfile.getById s b.dj_profile_id = some dj)
    (hnone : Payment.getByBookingIdAndStatus s bid "succeeded" = none) :
    (PaymentController.createPaymentIntent s u bid intentId newId).code = 201 ∧
    (PaymentController.createPaymentIntent s u bid intentId newId).payment
      = some { id := newId, booking_id := bid,
               stripe_payment_intent_id := intentId, amount := b.total_amount,
               service_fee := roundTo2 (b.total_amount * serviceFeePercentage),
               total_amount :=
                 b.total_amount + roundTo2 (b.total_amount * serviceFeePercentage),
               status := "pending" } ∧
    (PaymentController.createPaymentIntent s u bid intentId newId).chargedCents
      = some (jsRound
          ((b.total_amount + roundTo2 (b.total_amount * serviceFeePercentage)) * 100)) := by
  rcases hauth with hA | hH
  · rcases hstat with hS | hS <;>
      simp [PaymentController.createPaymentIntent, hb, hA, hS, hdj, hnone, roundTo2]
  · rcases hstat with hS | hS <;>
      simp [PaymentController.createPaymentIntent, hb, hH, hS, hdj, hnone, roundTo2]

/-- Witness for the fee computation: total 100, ten percent fee 10, charge
11000 cents. -/
theorem createPaymentIntent_fee_witness :
    State.getBooking stateC1 1 = some confirmedBookingFixture ∧
    Payment.getByBookingIdAndStatus stateC1 1 "succeeded" = none ∧
    roundTo2 (confirmedBookingFixture.total_amount * serviceFeePercentage) = 10 ∧
    jsRound ((confirmedBookingFixture.total_amount
        + roundTo2 (confirmedBookingFixture.total_amount * serviceFeePercentage)) * 100)
      = 11000 ∧
    ((PaymentController.createPaymentIntent stateC1 hostCaller 1 "pi_9" 5).code = 201 ∧
     (PaymentController.createPaymentIntent stateC1 hostCaller 1 "pi_9" 5).payment
       = some { id := 5, booking_id := 1, stripe_payment_intent_id := "pi_9",
                amount := confirmedBookingFixture.total_amount,
                service_fee := roundTo2
                  (confirmedBookingFixture.total_amount * serviceFeePercentage),
                total_amount := confirmedBookingFixture.total_amount
                  + roundTo2 (confirmedBookingFixture.total_amount * serviceFeePercentage),
                status := "pending" } ∧
     (PaymentController.createPaymentIntent stateC1 hostCaller 1 "pi_9" 5).chargedCents
       = some (jsRound ((confirmedBookingFixture.total_amount
           + roundTo2 (confirmedBookingFixture.total_amount * serviceFeePercentage)) * 100))) :=
  ⟨by decide, by decide,
   by norm_num [roundTo2, jsRound, serviceFeePercentage, confirmedBookingFixture],
   by norm_num [roundTo2, jsRound, serviceFeePercentage, confirmedBookingFixture],
   createPaymentIntent_fee stateC1 hostCaller 1 5 "pi_9" confirmedBookingFixture
     djFixture (by decide) (Or.inr rfl) (Or.inr rfl) (by decide) (by decide)⟩

/-- Claim C7 (amended): createBooking rejects with 400 an unparsable start
or end, a start strictly before now, or an end strictly before the start
(the boundary cases start equal to now and end equal to start pass); when
the checks pass and no conflict is reported, it persists the booking with
status pending and payment_status pending. -/
theorem createBooking_validation (s : State) (u : Caller)
    (req : CreateBookingReq) (now : ℚ) (newId : Nat) (dj : DjProfileR)
    (hrole : u.role = "host")
    (hdj : DjProfile.getById s req.dj_profile_id = some dj) :
    ((req.start_time = none ∨ req.end_time = none) →
      BookingController.createBooking s u req now newId = (400, s)) ∧
    (∀ st et : ℚ, req.start_time = some st → req.end_time = some et →
      st < now →
      BookingController.createBooking s u req now newId = (400, s)) ∧
    (∀ st et : ℚ, req.start_time = some st → req.end_time = some et →
      now ≤ st → et < st →
      BookingController.createBooking s u req now newId = (400, s)) ∧
    (∀ st et : ℚ, req.start_time = some st → req.end_time = some et →
      now ≤ st → st ≤ et →
      Booking.checkConflicts s req.dj_profile_id st et none = false →
      BookingController.createBooking s u req now newId
        = (201, { s with bookings := s.bookings ++
            [{ id := newId, host_id := u.id,
               dj_profile_id := req.dj_profile_id, start_time := st,
               end_time := et, duration_hours := et - st, status := "pending",
               total_amount := (et - st) * dj.hourly_rate,
               payment_status := "pending" }] })) := by
  refine ⟨?_, ?_, ?_, ?_⟩
  · intro h
    rcases h with h | h <;>
      cases hst : req.start_time <;> cases het : req.end_time <;>
        simp_all [BookingController.createBooking, hrole, hdj]
  · intro st et hst het hlt
    simp [BookingController.createBooking, hrole, hdj, hst, het, hlt]
  · intro st et hst het hge hlt
    simp [BookingController.createBooking, hrole, hdj, hst, het,
      not_lt.mpr hge, hlt]
  · intro st et hst het hge hle hconf
    simp [BookingController.createBooking, hrole, hdj, hst, het,
      not_lt.mpr hge, not_lt.mpr hle, hconf, Booking.create]

/-- Witness for the amended createBooking validation: start one hour after
now, end two hours later, no conflict, created as pending. -/
theorem createBooking_validation_witness :
    DjProfile.getById stateC7 20 = some djFixture ∧
    Booking.checkConflicts stateC7 20 101 103 none = false ∧
    BookingController.createBooking stateC7 hostCaller
        { dj_profile_id := 20, start_time := some 101, end_time := some 103 }
        100 1
      = (201, { stateC7 with bookings := stateC7.bookings ++
          [{ id := 1, host_id := hostCaller.id, dj_profile_id := 20,
             start_time := 101, end_time := 103,
             duration_hours := (103 : ℚ) - 101, status := "pending",
             total_amount := ((103 : ℚ) - 101) * djFixture.hourly_rate,
             payment_status := "pending" }] }) :=
  ⟨by decide, by decide,
   (createBooking_validation stateC7 hostCaller
      { dj_profile_id := 20, start_time := some 101, end_time := some 103 }
      100 1 djFixture rfl (by decide)).2.2.2 101 103 rfl rfl
      (by norm_num) (by norm_num) (by decide)⟩

/-- Claim C8: ending an active stream answers 200, sets the stream status
to ended with its update timestamp refreshed to the end instant, and the
parent confirmed booking is completed afterwards exactly when the caller
was the DJ of the stream or an admin; a host caller leaves the booking
untouched. -/
theorem endStream_completes_iff_dj_or_admin (s : State) (u : Caller)
    (sid : Nat) (now : ℚ) (st : StreamR) (b : BookingR)
    (hs : State.getStream s sid = some st)
    (hact : st.status = "active")
    (hb : State.getBooking s st.booking_id = some b)
    (hbs : b.status = "confirmed")
    (hauth : u.role = "admin" ∨ callerIsDjOfStream s u st = true ∨
      st.host_id = u.id) :
    (StreamController.endStream s u sid now).1 = 200 ∧
    (State.getStream (StreamController.endStream s u sid now).2 sid).map
        (fun x => x.status) = some "ended" ∧
    (State.getStream (StreamController.endStream s u sid now).2 sid).map
        (fun x => x.updated_at) = some (some now) ∧
    ((State.getBooking (StreamController.endStream s u sid now).2
          st.booking_id).map (fun x => x.status) = some "completed"
      ↔ (callerIsDjOfStream s u st = true ∨ u.role = "admin")) := by
  have hgetS :
      State.getStream (dbUpdateStreamStatus s sid "ended" now) sid
        = some { st with status := "ended", updated_at := some now } := by
    rw [getStream_after_update, hs]
    rfl
  have hgetB :
      State.getBooking (dbUpdateStreamStatus s sid "ended" now) st.booking_id
        = some b := hb
  by_cases hcas : callerIsDjOfStream s u st = true ∨ u.role = "admin"
  · have hres : StreamController.endStream s u sid now
        = (200, dbUpdateBookingStatus (dbUpdateStreamStatus s sid "ended" now)
            st.booking_id "completed") := by
      rcases hcas with hD | hA
      · simp [StreamController.endStream, hs, hact, hD, Stream.updateStatus,
          streamValidStatuses, Booking.updateStatus, bookingValidStatuses]
      · simp [StreamController.endStream, hs, hact, hA, Stream.updateStatus,
          streamValidStatuses, Booking.updateStatus, bookingValidStatuses]
    rw [hres]
    refine ⟨rfl, ?_, ?_, ?_⟩
    · have : State.getStream (dbUpdateBookingStatus
          (dbUpdateStreamStatus s sid "ended" now) st.booking_id "completed") sid
          = some { st with status := "ended", updated_at := some now } := hgetS
      simp [this]
    · have : State.getStream (dbUpdateBookingStatus
          (dbUpdateStreamStatus s sid "ended" now) st.booking_id "completed") sid
          = some { st with status := "ended", updated_at := some now } := hgetS
      simp [this]
    · rw [show State.getBooking (dbUpdateBookingStatus
          (dbUpdateStreamStatus s sid "ended" now) st.booking_id "completed")
            st.booking_id
          = (State.getBooking (dbUpdateStreamStatus s sid "ended" now)
              st.booking_id).map (fun x => { x with status := "completed" })
          from getBooking_after_update _ _ _, hgetB]
      simpa using hcas
  · have hD : callerIsDjOfStream s u st = false := by
      rcases hD : callerIsDjOfStream s u st with _ | _
      · rfl
      · exact absurd (Or.inl hD) hcas
    have hA : u.role ≠ "admin" := fun h => hcas (Or.inr h)
    have hH : st.host_id = u.id := by
      rcases hauth with h | h | h
      · exact absurd h hA
      · rw [h] at hD
        cases hD
      · exact h
    have hres : StreamController.endStream s u sid now
        = (200, dbUpdateStreamStatus s sid "ended" now) := by
      simp [StreamController.endStream, hs, hact, hD, hA, hH,
        Stream.updateStatus, streamValidStatuses]
    rw [hres]
    refine ⟨rfl, ?_, ?_, ?_⟩
    · simp [hgetS]
    · simp [hgetS]
    · rw [hgetB]
      simp only [Option.map_some']
      constructor
      · intro h
        have hx : b.status = "completed" := by
          simpa using h
        rw [hbs] at hx
        exact absurd hx (by decide)
      · intro h
        rcases h with h | h
        · rw [h] at hD
          cases hD
        · exact absurd h hA

/-- Witness for the end stream cascade: the DJ ends the active stream of
booking 1 and the booking is completed. -/
theorem endStream_completes_witness :
    State.getStream stateC8 7
      = some { id := 7, booking_id := 1, dj_profile_id := 20, host_id := 10,
               status := "active", updated_at := none } ∧
    (StreamController.endStream stateC8 djCaller 7 23).1 = 200 ∧
    (State.getStream (StreamController.endStream stateC8 djCaller 7 23).2 7).map
        (fun x => x.status) = some "ended" ∧
    ((State.getBooking (StreamController.endStream stateC8 djCaller 7 23).2 1).map
        (fun x => x.status) = some "completed"
      ↔ (callerIsDjOfStream stateC8 djCaller
            { id := 7, booking_id := 1, dj_profile_id := 20, host_id := 10,
              status := "active", updated_at := none } = true ∨
          djCaller.role = "admin")) :=
  ⟨by decide,
   (endStream_completes_iff_dj_or_admin stateC8 djCaller 7 23
      { id := 7, booking_id := 1, dj_profile_id := 20, host_id := 10,
        status := "active", updated_at := none }
      confirmedBookingFixture (by decide) rfl (by decide) (by decide)
      (Or.inr (Or.inl (by decide)))).1,
   (endStream_completes_iff_dj_or_admin stateC8 djCaller 7 23
      { id := 7, booking_id := 1, dj_profile_id := 20, host_id := 10,
        status := "active", updated_at := none }
      confirmedBookingFixture (by decide) rfl (by decide) (by decide)
      (Or.inr (Or.inl (by decide)))).2.1,
   (endStream_completes_iff_dj_or_admin stateC8 djCaller 7 23
      { id := 7, booking_id := 1, dj_profile_id := 20, host_id := 10,
        status := "active", updated_at := none }
      confirmedBookingFixture (by decide) rfl (by decide) (by decide)
      (Or.inr (Or.inl (by decide)))).2.2.2⟩

end PartyStream
